import Mathlib

/-!
Verification development for the zinbot API layer (`src/api.py` and
`src/utils.py`): a shallow embedding of the request dispatcher, the
token provider, the `APIError` constructor's diagnostic-file side
effect, and the `Authorization` credential display, together with
theorems about the behaviour of these operations.

The embedding follows the Python source:
* JSON values are the inductive `Json`; the decoded body of a response
  (`response.json()`) is modelled as an `Option Json` field of
  `Response`, `none` standing for a `JSONDecodeError`.
* Python's `'error' in data` membership test (which depends on the
  runtime type of `data` and raises `TypeError` on non-containers) is
  `pyContains`.
* Exceptions are values of `Exc`; functions that can raise return
  `Except Exc α`.
* `APIError.__init__`'s write to `logs/APIError.json` /
  `logs/APIError.txt` is `apiErrorInit`, a transformation of a
  file-system state `FS`, parameterised by a `SinkEnv` saying whether
  opening each sink file succeeds; an `open` failure is an OS error,
  modelled as `Except.error ()`.
-/

/-- JSON value trees, as produced by `response.json()`. Numbers are
modelled as integers (the payloads relevant here are strings and
objects). -/
inductive Json where
  | null : Json
  | bool (b : Bool) : Json
  | num (n : Int) : Json
  | str (s : String) : Json
  | arr (xs : List Json) : Json
  | obj (kvs : List (String × Json)) : Json

/-- Substring occurrence on character lists, for Python's `s1 in s2`
on strings and for reasoning about credential display. -/
def containsSub : List Char → List Char → Bool
  | needle, [] => needle.isEmpty
  | needle, c :: rest => needle.isPrefixOf (c :: rest) || containsSub needle rest

/-- Lookup of a key in a Python dict modelled as an association list
(first binding wins, as dict keys are unique). -/
def lookupKey (k : String) : List (String × Json) → Option Json
  | [] => none
  | (k2, v) :: rest => if k2 == k then some v else lookupKey k rest

/-- Python's `needle in data` for a string `needle`, by the runtime type
of `data`: key membership for dicts, element equality for lists,
substring containment for strings; `none` models the `TypeError` raised
when `data` is not a container (`None`, a bool, or a number). -/
def pyContains (needle : String) : Json → Option Bool
  | .obj kvs => some (lookupKey needle kvs).isSome
  | .arr xs => some (xs.any (fun x => match x with
      | .str s => s == needle
      | _ => false))
  | .str s => some (containsSub needle.data s.data)
  | .null => none
  | .bool _ => none
  | .num _ => none

/-- Python truthiness of a JSON value (`if event:`). -/
def Json.truthy : Json → Bool
  | .null => false
  | .bool b => b
  | .num n => n != 0
  | .str s => s != ""
  | .arr xs => !xs.isEmpty
  | .obj kvs => !kvs.isEmpty

/-- A diagnostic payload passed as the `event` argument of
`APIError.__init__`: either the raw (undecoded) response body bytes, or
a decoded JSON value. -/
inductive Event where
  | raw (content : String) : Event
  | json (j : Json) : Event

/-- Python truthiness of an event (`bytes` are truthy iff nonempty). -/
def Event.truthy : Event → Bool
  | .raw s => s != ""
  | .json j => j.truthy

/-- Whether `json.dump` accepts the event: a decoded JSON value is
serializable, raw `bytes` raise `TypeError`. -/
def Event.serializable : Event → Bool
  | .raw _ => false
  | .json _ => true

/-- What was last written to `logs/APIError.json`: `truncated` when the
file was opened with mode `w` but `json.dump` then failed, `dumped j`
when `j` was serialized into it. -/
inductive JsonSinkWrite where
  | truncated : JsonSinkWrite
  | dumped (j : Json) : JsonSinkWrite

/-- State of the two diagnostic sink files; `none` means the location
has not been written by the run under consideration. -/
structure FS where
  jsonSink : Option JsonSinkWrite
  txtSink : Option String

/-- Environment for the diagnostic writes: whether `open` on each sink
file succeeds (an unopenable file raises `OSError`). -/
structure SinkEnv where
  jsonOpenOk : Bool
  txtOpenOk : Bool

/-- The side effect of `APIError.__init__(msg, event)` on the sink
files (identical in `src/api.py` and `src/utils.py`): if `event` is
truthy, open `logs/APIError.json` and `json.dump` the event into it;
on `TypeError` (unserializable event) fall back to writing
`str(event)` to `logs/APIError.txt`. Only `TypeError` is caught, so a
failing `open` propagates as an OS error (`Except.error ()`). -/
def apiErrorInit (env : SinkEnv) (event : Option Event) (fs : FS) :
    Except Unit FS :=
  match event with
  | none => .ok fs
  | some e =>
    if e.truthy then
      if env.jsonOpenOk then
        match e with
        | .json j => .ok { fs with jsonSink := some (.dumped j) }
        | .raw s =>
          if env.txtOpenOk then
            .ok { jsonSink := some .truncated, txtSink := some s }
          else .error ()
      else .error ()
    else .ok fs

/-- An exception leaving the API layer: `APIError(msg, event)`,
`ZBError(msg)`, or an uncaught builtin `TypeError` (raised e.g. by
`'error' in data` when `data` is not a container). -/
inductive Exc where
  | apiError (msg : String) (event : Option Event) : Exc
  | zbError (msg : String) : Exc
  | typeError : Exc

/-- The file-system effect of raising an exception: constructing an
`APIError` runs `apiErrorInit`; `ZBError` and builtin exceptions have
no constructor side effect. -/
def raiseEffect (env : SinkEnv) (e : Exc) (fs : FS) : Except Unit FS :=
  match e with
  | .apiError _ event => apiErrorInit env event fs
  | .zbError _ => .ok fs
  | .typeError => .ok fs

/-- An HTTP response as seen by the dispatcher: status code, raw body
(`response.content`), and the result of `response.json()` (`none` for
a `JSONDecodeError`). -/
structure Response where
  status_code : Nat
  content : String
  jsonBody : Option Json

/-- `bool(response)` in `requests`: true unless `raise_for_status`
would raise, i.e. unless the status code is in [400, 600). -/
def Response.toBool (r : Response) : Bool :=
  !(400 ≤ r.status_code && r.status_code < 600)

/-- The message of `APIError(f"response.status_code=...")`. -/
def statusMsg (code : Nat) : String :=
  "response.status_code=" ++ toString code

/-- `_request` from `src/api.py` (lines 55-90), given the response the
signed session produced: raise `APIError` with the raw body on an
error status, `APIError` with the raw body on a JSON decode failure,
`APIError` with the decoded data if `'error' in data`, else return the
decoded data. -/
def request (r : Response) : Except Exc Json :=
  if !r.toBool then
    .error (.apiError (statusMsg r.status_code) (some (.raw r.content)))
  else
    match r.jsonBody with
    | none => .error (.apiError "No JSON found." (some (.raw r.content)))
    | some data =>
      match pyContains "error" data with
      | none => .error .typeError
      | some true =>
        .error (.apiError "'error' field in response." (some (.json data)))
      | some false => .ok data

/-- `Bot._api` from `src/utils.py` (lines 110-141): identical to
`request` except that on an `'error'` field it passes
`response.content` (the raw body) as the diagnostic payload instead of
the decoded data. -/
def botApi (r : Response) : Except Exc Json :=
  if !r.toBool then
    .error (.apiError (statusMsg r.status_code) (some (.raw r.content)))
  else
    match r.jsonBody with
    | none => .error (.apiError "No JSON found." (some (.raw r.content)))
    | some data =>
      match pyContains "error" data with
      | none => .error .typeError
      | some true =>
        .error (.apiError "'error' field in response." (some (.raw r.content)))
      | some false => .ok data

/-- Request parameters: a Python dict `dict[str, object]` as an
association list with unique keys, in insertion order. -/
abbrev Params := List (String × Json)

/-- The dict display `{'format': 'json', **params}` used by `get` and
`post` in both modules: the key `format` (bound to the caller's value
when `params` supplies one, to `"json"` otherwise) followed by the
remaining entries of `params`. -/
def mergeDefaultFormat (params : Params) : Params :=
  ("format", (lookupKey "format" params).getD (.str "json")) ::
    params.filter (fun p => p.1 != "format")

/-- The remote side as seen through the signed session: what response
each transmitted GET parameter set, or POST parameter set and body,
produces. The dispatcher is a pure function of this oracle. -/
structure Network where
  getResp : Params → Response
  postResp : Params → Params → Response

/-- `get(params)` from `src/api.py` (lines 93-105): dispatch a GET with
the merged parameter set. -/
def get (net : Network) (params : Params) : Except Exc Json :=
  request (net.getResp (mergeDefaultFormat params))

/-- Builtin exceptions that a Python subscript `x[k]` with a string key
can raise: `KeyError` when a dict lacks the key, `TypeError` when `x`
is not a dict. -/
inductive PyErr where
  | keyError : PyErr
  | typeError : PyErr

/-- Python subscript `x[k]` for a string key `k`. -/
def Json.getItem : Json → String → Except PyErr Json
  | .obj kvs, k =>
    match lookupKey k kvs with
    | some v => .ok v
    | none => .error .keyError
  | _, _ => .error .typeError

/-- The fixed token-query parameters of `get_token`:
`action=query, meta=tokens, type=tokentype`. -/
def tokenQueryParams (tokentype : String) : Params :=
  [("action", .str "query"), ("meta", .str "tokens"),
   ("type", .str tokentype)]

/-- The MediaWiki empty-token sentinel the source compares against:
the Python raw string `R"+\\"`, i.e. the three characters plus,
backslash, backslash. -/
def emptyTokenSentinel : String := "+\\\\"

/-- The subscript chain `query['query']['tokens'][tokentype + 'token']`
of `get_token`. -/
def extractToken (query : Json) (tokentype : String) : Except PyErr Json :=
  match query.getItem "query" with
  | .error e => .error e
  | .ok qv =>
    match qv.getItem "tokens" with
    | .error e => .error e
    | .ok tv => tv.getItem (tokentype ++ "token")

/-- `get_token(tokentype)` from `src/api.py` (lines 131-155): query for
a token, extract `query.tokens.<tokentype>token` (a `KeyError` becomes
`APIError("No token obtained.", query)`; a `TypeError` is not caught),
reject the empty-token sentinel with `ZBError`, else return the token.
The annotation says `str` but the value is returned unchecked. -/
def get_token (net : Network) (tokentype : String) : Except Exc Json :=
  match get net (tokenQueryParams tokentype) with
  | .error e => .error e
  | .ok query =>
    match extractToken query tokentype with
    | .error .keyError =>
      .error (.apiError "No token obtained." (some (.json query)))
    | .error .typeError => .error .typeError
    | .ok token =>
      match token with
      | .str s =>
        if s == emptyTokenSentinel then .error (.zbError "Empty token.")
        else .ok (.str s)
      | t => .ok t

/-- `post(params, tokentype)` from `src/api.py` (lines 108-128): obtain
a fresh token via `get_token` (argument evaluation happens before the
POST is issued, and a failure there propagates without any POST), then
dispatch a POST whose body is the single-field dict
`{'token': <that token>}`. -/
def post (net : Network) (params : Params) (tokentype : String) :
    Except Exc Json :=
  match get_token net tokentype with
  | .error e => .error e
  | .ok token =>
    request (net.postResp (mergeDefaultFormat params) [("token", token)])

/-- `Bot.get` from `src/utils.py` (lines 143-155). -/
def botGet (net : Network) (params : Params) : Except Exc Json :=
  botApi (net.getResp (mergeDefaultFormat params))

/-- `Bot.get_token` from `src/utils.py` (lines 180-204): same logic as
`get_token`, routed through `Bot._api`. -/
def botGetToken (net : Network) (tokentype : String) : Except Exc Json :=
  match botGet net (tokenQueryParams tokentype) with
  | .error e => .error e
  | .ok query =>
    match extractToken query tokentype with
    | .error .keyError =>
      .error (.apiError "No token obtained." (some (.json query)))
    | .error .typeError => .error .typeError
    | .ok token =>
      match token with
      | .str s =>
        if s == emptyTokenSentinel then .error (.zbError "Empty token.")
        else .ok (.str s)
      | t => .ok t

/-- `Bot.post` from `src/utils.py` (lines 157-178). -/
def botPost (net : Network) (params : Params) (tokentype : String) :
    Except Exc Json :=
  match botGetToken net tokentype with
  | .error e => .error e
  | .ok token =>
    botApi (net.postResp (mergeDefaultFormat params) [("token", token)])

/-- `Authorization` from `src/utils.py` (lines 45-69): the four
credential strings. -/
structure Authorization where
  client_key : String
  client_secret : String
  access_key : String
  access_secret : String

/-- `Authorization.__repr__` (lines 57-59): formats all four credential
fields. -/
def Authorization.pyRepr (a : Authorization) : String :=
  "Authorization(" ++ a.client_key ++ ", " ++ a.client_secret ++ ", " ++
    a.access_key ++ ", " ++ a.access_secret ++ ")"

/-- `Authorization.__str__` (lines 61-62): shows only the access key. -/
def Authorization.pyStr (a : Authorization) : String :=
  "<Authorization object with access key " ++ a.access_key ++ ">"

/-! ## Helper lemmas -/

theorem containsSub_append (n p s : List Char) :
    containsSub n (p ++ (n ++ s)) = true := by
  induction p with
  | nil =>
    simp only [List.nil_append]
    cases h : n ++ s with
    | nil =>
      have hn : n = [] := by
        cases n with
        | nil => rfl
        | cons a t => simp at h
      subst hn
      simp [containsSub]
    | cons c r =>
      have hp : n.isPrefixOf (c :: r) = true := by
        rw [← h, List.isPrefixOf_iff_prefix]
        exact List.prefix_append n s
      simp [containsSub, hp]
  | cons c p ih =>
    rw [List.cons_append, containsSub, ih, Bool.or_true]

theorem containsSub_of_eq (n h p s : List Char) (he : h = p ++ (n ++ s)) :
    containsSub n h = true := he ▸ containsSub_append n p s

theorem lookupKey_merge_format (params : Params) :
    lookupKey "format" (mergeDefaultFormat params)
      = some ((lookupKey "format" params).getD (.str "json")) := by
  simp [mergeDefaultFormat, lookupKey]

/-! ## Claim theorems -/

/-- C2: for every parameter mapping P passed to `get` or `post`, the
transmitted parameter set (`mergeDefaultFormat P`, the embedding of
`{'format': 'json', **params}` that `get`, `post`, `Bot.get` and
`Bot.post` all transmit as their `params` argument) contains the key
`format`: it is `json` whenever P has no `format` key, and P's own
`format` value whenever P supplies one. The last four conjuncts tie the
transmitted set to the four dispatch operations. -/
theorem c2_format_default_overridable (params : Params) :
    (lookupKey "format" params = none →
      lookupKey "format" (mergeDefaultFormat params) = some (.str "json"))
    ∧ (∀ v : Json, lookupKey "format" params = some v →
      lookupKey "format" (mergeDefaultFormat params) = some v)
    ∧ (∀ net : Network,
      get net params = request (net.getResp (mergeDefaultFormat params)))
    ∧ (∀ (net : Network) (t : String),
      post net params t = (get_token net t).bind (fun token =>
        request (net.postResp (mergeDefaultFormat params) [("token", token)])))
    ∧ (∀ net : Network,
      botGet net params = botApi (net.getResp (mergeDefaultFormat params)))
    ∧ (∀ (net : Network) (t : String),
      botPost net params t = (botGetToken net t).bind (fun token =>
        botApi (net.postResp (mergeDefaultFormat params) [("token", token)]))) := by
  refine ⟨?_, ?_, fun net => rfl, ?_, fun net => rfl, ?_⟩
  · intro h
    rw [lookupKey_merge_format, h]
    rfl
  · intro v h
    rw [lookupKey_merge_format, h]
    rfl
  · intro net t
    rw [post]
    cases get_token net t <;> rfl
  · intro net t
    rw [botPost]
    cases botGetToken net t <;> rfl

/-- C2 witness: with no caller-supplied `format` the transmitted value
is `json`; a caller-supplied `format` value survives unchanged. -/
theorem c2_format_default_overridable_witness :
    lookupKey "format" (mergeDefaultFormat []) = some (.str "json")
    ∧ lookupKey "format" (mergeDefaultFormat [("format", .str "xml")])
        = some (.str "xml") :=
  ⟨(c2_format_default_overridable []).1 rfl,
   (c2_format_default_overridable [("format", .str "xml")]).2.1 (.str "xml") rfl⟩

/-- A concrete credential bundle with pairwise-distinct fields, used to
exhibit what the display operations reveal. -/
def leakAuth : Authorization :=
  { client_key := "CKEY1", client_secret := "CSECRET2",
    access_key := "AKEY3", access_secret := "ASECRET4" }

/-- C9 counterexample: the claim says no displayed form contains the
four credential fields in full, yet `__repr__` of a concrete
`Authorization` contains all four — including both secrets — as
substrings. -/
theorem c9_counterexample :
    containsSub leakAuth.client_secret.data leakAuth.pyRepr.data = true
    ∧ containsSub leakAuth.access_secret.data leakAuth.pyRepr.data = true
    ∧ containsSub leakAuth.client_key.data leakAuth.pyRepr.data = true
    ∧ containsSub leakAuth.access_key.data leakAuth.pyRepr.data = true := by
  refine ⟨?_, ?_, ?_, ?_⟩ <;> decide

/-- C9 amended: `__str__` displays only the access key, but `__repr__`
contains all four credential fields in full, for every
`Authorization`. -/
theorem c9_amended_display_contents (a : Authorization) :
    containsSub a.client_key.data a.pyRepr.data = true
    ∧ containsSub a.client_secret.data a.pyRepr.data = true
    ∧ containsSub a.access_key.data a.pyRepr.data = true
    ∧ containsSub a.access_secret.data a.pyRepr.data = true
    ∧ containsSub a.access_key.data a.pyStr.data = true := by
  refine ⟨?_, ?_, ?_, ?_, ?_⟩
  · exact containsSub_of_eq _ _ ("Authorization(".data)
      (", ".data ++ a.client_secret.data ++ ", ".data ++ a.access_key.data
        ++ ", ".data ++ a.access_secret.data ++ ")".data)
      (by simp [Authorization.pyRepr, String.data_append, List.append_assoc])
  · exact containsSub_of_eq _ _
      ("Authorization(".data ++ a.client_key.data ++ ", ".data)
      (", ".data ++ a.access_key.data ++ ", ".data ++ a.access_secret.data
        ++ ")".data)
      (by simp [Authorization.pyRepr, String.data_append, List.append_assoc])
  · exact containsSub_of_eq _ _
      ("Authorization(".data ++ a.client_key.data ++ ", ".data
        ++ a.client_secret.data ++ ", ".data)
      (", ".data ++ a.access_secret.data ++ ")".data)
      (by simp [Authorization.pyRepr, String.data_append, List.append_assoc])
  · exact containsSub_of_eq _ _
      ("Authorization(".data ++ a.client_key.data ++ ", ".data
        ++ a.client_secret.data ++ ", ".data ++ a.access_key.data ++ ", ".data)
      (")".data)
      (by simp [Authorization.pyRepr, String.data_append, List.append_assoc])
  · exact containsSub_of_eq _ _
      ("<Authorization object with access key ".data) (">".data)
      (by simp [Authorization.pyStr, String.data_append, List.append_assoc])

/-- C10: an `APIError` constructed with a falsy diagnostic payload
(`None`, an empty dict, or empty bytes) writes nothing: the constructor
effect returns the file-system state unchanged, whatever the sink
environment, so both sink locations are left as they were. -/
theorem c10_falsy_event_writes_nothing (env : SinkEnv) (fs : FS) :
    apiErrorInit env none fs = .ok fs
    ∧ apiErrorInit env (some (.json (.obj []))) fs = .ok fs
    ∧ apiErrorInit env (some (.raw "")) fs = .ok fs := by
  refine ⟨rfl, ?_, ?_⟩ <;> simp [apiErrorInit, Event.truthy, Json.truthy]

/-- C6: an error-range status (404 in particular, and any status in
[400, 600), where `bool(response)` is false) makes both dispatchers
raise `APIError` with the status-code message and the raw body as the
diagnostic payload. The response's `jsonBody` is arbitrary — the
equation holds even when the body is undecodable (`none`), showing the
status check precedes any decode attempt. -/
theorem c6_error_status_raises_with_raw_body (r : Response)
    (h4 : 400 ≤ r.status_code) (h6 : r.status_code < 600) :
    request r
      = .error (.apiError (statusMsg r.status_code) (some (.raw r.content)))
    ∧ botApi r
      = .error (.apiError (statusMsg r.status_code) (some (.raw r.content))) := by
  have hb : r.toBool = false := by simp [Response.toBool, h4, h6]
  constructor <;> simp [request, botApi, hb]

/-- A 404 response whose body is not even decodable JSON. -/
def notFoundResponse : Response :=
  { status_code := 404, content := "notfound", jsonBody := none }

/-- C6 witness: a concrete 404 with an undecodable body raises the
HTTP-status `APIError` carrying the raw body. -/
theorem c6_error_status_witness :
    request notFoundResponse
      = .error (.apiError (statusMsg 404) (some (.raw "notfound")))
    ∧ botApi notFoundResponse
      = .error (.apiError (statusMsg 404) (some (.raw "notfound"))) :=
  c6_error_status_raises_with_raw_body notFoundResponse (by decide) (by decide)

/-- A non-error response whose decoded body carries an `error` field,
with a raw body distinct from the decoded object. -/
def errorFieldResponse : Response :=
  { status_code := 200, content := "rawerrbody",
    jsonBody := some (.obj [("error", .obj [("code", .str "badtoken")])]) }

/-- C3 counterexample: the claim says the persisted diagnostic payload
is the full decoded JSON object and not the raw undecoded body, but
`Bot._api` (`src/utils.py` line 140) passes `response.content` — the
raw body, a different payload than the decoded object. -/
theorem c3_counterexample :
    botApi errorFieldResponse
      = .error (.apiError "'error' field in response."
          (some (.raw "rawerrbody")))
    ∧ Event.raw "rawerrbody"
        ≠ Event.json (.obj [("error", .obj [("code", .str "badtoken")])]) := by
  refine ⟨rfl, fun hx => ?_⟩
  cases hx

/-- C3 amended: `_request` in `src/api.py` raises the
`'error' field in response.` `APIError` with the full decoded JSON as
payload, and the constructor persists exactly that object to the JSON
sink; `Bot._api` in `src/utils.py` instead passes the raw undecoded
body. -/
theorem c3_amended_error_field_payload (r : Response) (data : Json)
    (env : SinkEnv) (fs : FS)
    (hok : r.toBool = true) (hj : r.jsonBody = some data)
    (he : pyContains "error" data = some true)
    (henv : env.jsonOpenOk = true) (ht : data.truthy = true) :
    request r
      = .error (.apiError "'error' field in response." (some (.json data)))
    ∧ apiErrorInit env (some (.json data)) fs
        = .ok { fs with jsonSink := some (.dumped data) }
    ∧ botApi r
      = .error (.apiError "'error' field in response."
          (some (.raw r.content))) := by
  refine ⟨?_, ?_, ?_⟩
  · simp [request, hok, hj, he]
  · simp [apiErrorInit, Event.truthy, ht, henv]
  · simp [botApi, hok, hj, he]

/-- C3 amended witness: the concrete `error`-field response, with both
sinks openable and untouched. -/
theorem c3_amended_witness :
    request errorFieldResponse
      = .error (.apiError "'error' field in response."
          (some (.json (.obj [("error", .obj [("code", .str "badtoken")])]))))
    ∧ apiErrorInit ⟨true, true⟩
        (some (.json (.obj [("error", .obj [("code", .str "badtoken")])])))
        ⟨none, none⟩
        = .ok ⟨some (.dumped (.obj [("error", .obj [("code", .str "badtoken")])])),
               none⟩
    ∧ botApi errorFieldResponse
      = .error (.apiError "'error' field in response."
          (some (.raw "rawerrbody"))) :=
  c3_amended_error_field_payload errorFieldResponse
    (.obj [("error", .obj [("code", .str "badtoken")])])
    ⟨true, true⟩ ⟨none, none⟩ rfl rfl rfl rfl rfl

/-- C4 counterexample: the claim says a diagnostic-write failure of any
kind is never propagated in place of the original `APIError`, but only
`TypeError` is caught: an unopenable `logs/APIError.json` (left case)
or `logs/APIError.txt` (right case) raises an OS error out of
`APIError.__init__`, so the OS error, not the `APIError`, surfaces. -/
theorem c4_counterexample :
    apiErrorInit ⟨false, true⟩ (some (.json (.obj [("error", .str "x")])))
      ⟨none, none⟩ = .error ()
    ∧ apiErrorInit ⟨true, false⟩ (some (.raw "rawbody")) ⟨none, none⟩
      = .error () :=
  ⟨rfl, rfl⟩

/-- C4 amended: the only write failure the constructor absorbs is the
serialization `TypeError` (redirected to the text sink); whenever both
sink files can be opened, the constructor completes for every payload
and the `APIError` is the surfaced failure. A failure to open a sink
propagates instead (see the counterexample). -/
theorem c4_amended_only_typeerror_swallowed (env : SinkEnv)
    (event : Option Event) (fs : FS)
    (hj : env.jsonOpenOk = true) (ht : env.txtOpenOk = true) :
    ∃ fs2 : FS, apiErrorInit env event fs = .ok fs2 := by
  cases event with
  | none => exact ⟨fs, rfl⟩
  | some e =>
    cases e with
    | raw s =>
      by_cases hs : (s != "") = true
      · exact ⟨⟨some .truncated, some s⟩,
          by simp [apiErrorInit, Event.truthy, hs, hj, ht]⟩
      · have hs2 : (s != "") = false := by
          simpa using hs
        exact ⟨fs, by simp [apiErrorInit, Event.truthy, hs2]⟩
    | json j =>
      by_cases htr : j.truthy = true
      · exact ⟨{ fs with jsonSink := some (.dumped j) },
          by simp [apiErrorInit, Event.truthy, htr, hj]⟩
      · have htr2 : j.truthy = false := by
          simpa using htr
        exact ⟨fs, by simp [apiErrorInit, Event.truthy, htr2]⟩

/-- C4 amended witness: an unserializable (raw-bytes) payload with both
sinks openable completes without propagating the `TypeError`. -/
theorem c4_amended_witness :
    ∃ fs2 : FS,
      apiErrorInit ⟨true, true⟩ (some (.raw "rawbody")) ⟨none, none⟩
        = .ok fs2 :=
  c4_amended_only_typeerror_swallowed ⟨true, true⟩ (some (.raw "rawbody"))
    ⟨none, none⟩ rfl rfl

/-- A non-error response decoding to a JSON array that contains the
string `"error"` as an element (so it has no top-level `error` key). -/
def listErrorResponse : Response :=
  { status_code := 200, content := "listbody",
    jsonBody := some (.arr [.str "error"]) }

/-- C8 counterexample: the claim promises any non-error-status response
decoding to a JSON value without a top-level `error` key is returned
unchanged, but `'error' in data` is Python membership: on the array
`["error"]` — which has no keys at all — it is true, so the dispatcher
raises instead of returning the value. -/
theorem c8_counterexample :
    Response.toBool listErrorResponse = true
    ∧ listErrorResponse.jsonBody = some (.arr [.str "error"])
    ∧ request listErrorResponse
        = .error (.apiError "'error' field in response."
            (some (.json (.arr [.str "error"]))))
    ∧ request listErrorResponse ≠ .ok (.arr [.str "error"]) := by
  refine ⟨rfl, rfl, rfl, fun hx => ?_⟩
  have h3 : request listErrorResponse
      = .error (.apiError "'error' field in response."
          (some (.json (.arr [.str "error"])))) := rfl
  rw [h3] at hx
  cases hx

/-- C8 amended: a non-error-status response whose body decodes to a
JSON object with no top-level `error` key is returned unchanged by
both dispatchers (and hence by `get`/`post`, which return the
dispatcher result directly). -/
theorem c8_amended_object_roundtrip (r : Response)
    (kvs : List (String × Json))
    (hok : r.toBool = true) (hj : r.jsonBody = some (.obj kvs))
    (he : lookupKey "error" kvs = none) :
    request r = .ok (.obj kvs) ∧ botApi r = .ok (.obj kvs) := by
  have hc : pyContains "error" (.obj kvs) = some false := by
    simp [pyContains, he]
  constructor <;> simp [request, botApi, hok, hj, hc]

/-- A successful response with an ordinary object body. -/
def okResponse : Response :=
  { status_code := 200, content := "okbody",
    jsonBody := some (.obj [("batchcomplete", .str "")]) }

/-- C8 amended witness: a concrete success object comes back
unchanged from both dispatchers. -/
theorem c8_amended_witness :
    request okResponse = .ok (.obj [("batchcomplete", .str "")])
    ∧ botApi okResponse = .ok (.obj [("batchcomplete", .str "")]) :=
  c8_amended_object_roundtrip okResponse [("batchcomplete", .str "")]
    rfl rfl rfl

/-- C1: whenever `get_token` (resp. `Bot.get_token`) yields a token in
a `post` (resp. `Bot.post`) invocation, the transmitted body is the
literal one-field dict `{'token': <that token>}`: it has exactly one
field, named `token`, bound to the value fetched during that same
invocation. `post` holds no token state at all (it is a function of the
network oracle alone), so no value can be cached or reused across
calls: each invocation re-runs `get_token`. -/
theorem c1_post_body_single_fresh_token (net : Network) (params : Params)
    (t : String) (token tok2 : Json)
    (h : get_token net t = .ok token)
    (h2 : botGetToken net t = .ok tok2) :
    post net params t
      = request (net.postResp (mergeDefaultFormat params) [("token", token)])
    ∧ botPost net params t
      = botApi (net.postResp (mergeDefaultFormat params) [("token", tok2)])
    ∧ [(("token" : String), token)].length = 1
    ∧ lookupKey "token" [("token", token)] = some token := by
  refine ⟨?_, ?_, rfl, ?_⟩
  · rw [post, h]
  · rw [botPost, h2]
  · simp [lookupKey]

/-- A successful token-query response carrying a CSRF token. -/
def tokenResponse : Response :=
  { status_code := 200, content := "tokenresp",
    jsonBody := some (.obj [("query", .obj [("tokens",
      .obj [("csrftoken", .str "abc+")])])]) }

/-- A successful response to a POST. -/
def postOkResponse : Response :=
  { status_code := 200, content := "postresp",
    jsonBody := some (.obj [("edit", .obj [("result", .str "Success")])]) }

/-- A network that answers every GET with the token response and every
POST with a success. -/
def netGood : Network :=
  { getResp := fun _ => tokenResponse, postResp := fun _ _ => postOkResponse }

/-- C1 witness: against `netGood` the fetched token is `abc+` and the
POST body is exactly `{'token': 'abc+'}`. -/
theorem c1_post_body_witness :
    post netGood [] "csrf"
      = request (netGood.postResp (mergeDefaultFormat [])
          [("token", .str "abc+")])
    ∧ botPost netGood [] "csrf"
      = botApi (netGood.postResp (mergeDefaultFormat [])
          [("token", .str "abc+")])
    ∧ [(("token" : String), Json.str "abc+")].length = 1
    ∧ lookupKey "token" [("token", .str "abc+")] = some (.str "abc+") :=
  c1_post_body_single_fresh_token netGood [] "csrf" (.str "abc+")
    (.str "abc+") rfl rfl

/-- C5: a token query whose extracted token is exactly the empty-token
sentinel `+\\` makes `get_token` (and `Bot.get_token`) raise
`ZBError("Empty token.")` — a constructor of `Exc` distinct from
`apiError` — and raising a `ZBError` has no file-system effect, so
neither sink is written. -/
theorem c5_sentinel_token_zberror (net : Network) (t : String)
    (query : Json) (env : SinkEnv) (fs : FS)
    (hq : get net (tokenQueryParams t) = .ok query)
    (hq2 : botGet net (tokenQueryParams t) = .ok query)
    (hx : extractToken query t = .ok (.str emptyTokenSentinel)) :
    get_token net t = .error (.zbError "Empty token.")
    ∧ botGetToken net t = .error (.zbError "Empty token.")
    ∧ raiseEffect env (.zbError "Empty token.") fs = .ok fs
    ∧ (∀ (msg : String) (ev : Option Event),
        Exc.zbError "Empty token." ≠ Exc.apiError msg ev) := by
  refine ⟨?_, ?_, rfl, fun msg ev hne => by cases hne⟩
  · simp [get_token, hq, hx]
  · simp [botGetToken, hq2, hx]

/-- A token-query response whose token is the empty-token sentinel. -/
def sentinelTokenResponse : Response :=
  { status_code := 200, content := "sentinelresp",
    jsonBody := some (.obj [("query", .obj [("tokens",
      .obj [("csrftoken", .str emptyTokenSentinel)])])]) }

/-- A network answering every GET with the sentinel-token response. -/
def netSentinel : Network :=
  { getResp := fun _ => sentinelTokenResponse,
    postResp := fun _ _ => postOkResponse }

/-- C5 witness: a concrete sentinel-token exchange raises `ZBError` in
both modules and leaves a concrete untouched file system untouched. -/
theorem c5_sentinel_witness :
    get_token netSentinel "csrf" = .error (.zbError "Empty token.")
    ∧ botGetToken netSentinel "csrf" = .error (.zbError "Empty token.")
    ∧ raiseEffect ⟨true, true⟩ (.zbError "Empty token.") ⟨none, none⟩
        = .ok ⟨none, none⟩
    ∧ Exc.zbError "Empty token." ≠ Exc.apiError "No token obtained." none := by
  have h := c5_sentinel_token_zberror netSentinel "csrf"
    (.obj [("query", .obj [("tokens",
      .obj [("csrftoken", .str emptyTokenSentinel)])])])
    ⟨true, true⟩ ⟨none, none⟩ rfl rfl rfl
  exact ⟨h.1, h.2.1, h.2.2.1, h.2.2.2 "No token obtained." none⟩

/-- C7: when the token-query response nests a `tokens` mapping that
lacks the `<tokentype>token` field, the `KeyError` becomes
`APIError("No token obtained.", query)` in both modules, with the full
query response as the diagnostic payload. -/
theorem c7_missing_token_field (net : Network) (t : String)
    (query qv : Json) (tkvs : List (String × Json))
    (hq : get net (tokenQueryParams t) = .ok query)
    (hq2 : botGet net (tokenQueryParams t) = .ok query)
    (h1 : query.getItem "query" = .ok qv)
    (h2 : qv.getItem "tokens" = .ok (.obj tkvs))
    (h3 : lookupKey (t ++ "token") tkvs = none) :
    get_token net t
      = .error (.apiError "No token obtained." (some (.json query)))
    ∧ botGetToken net t
      = .error (.apiError "No token obtained." (some (.json query))) := by
  have hx : extractToken query t = .error .keyError := by
    simp only [extractToken, h1]
    simp only [h2]
    simp [Json.getItem, h3]
  constructor
  · simp [get_token, hq, hx]
  · simp [botGetToken, hq2, hx]

/-- The token-query response `query.tokens = ` empty mapping. -/
def emptyTokensResponse : Response :=
  { status_code := 200, content := "emptytokens",
    jsonBody := some (.obj [("query", .obj [("tokens", .obj [])])]) }

/-- A network answering every GET with the empty-tokens response. -/
def netEmptyTokens : Network :=
  { getResp := fun _ => emptyTokensResponse,
    postResp := fun _ _ => postOkResponse }

/-- C7 witness: the response `query.tokens` empty for type `csrf`
yields the `No token obtained.` `APIError` carrying the full query
response, in both modules. -/
theorem c7_missing_token_witness :
    get_token netEmptyTokens "csrf"
      = .error (.apiError "No token obtained."
          (some (.json (.obj [("query", .obj [("tokens", .obj [])])]))))
    ∧ botGetToken netEmptyTokens "csrf"
      = .error (.apiError "No token obtained."
          (some (.json (.obj [("query", .obj [("tokens", .obj [])])])))) :=
  c7_missing_token_field netEmptyTokens "csrf"
    (.obj [("query", .obj [("tokens", .obj [])])])
    (.obj [("tokens", .obj [])]) [] rfl rfl rfl rfl rfl
